import Mathlib

/-!
Verification of the connection establishment and transport abstraction layer
of the seamlessjs (MoopsyJS) server, a shallow embedding of
`src/models/server.ts`:

* `handleHTTPEstablishRequest` — the HTTP fallback establishment handler,
* `handleHTTPMessageRequest` — the HTTP fallback message handler,
* `handleNewSocketIOConnection` — the SocketIO establishment handler,
* `handleNewConnection` — the transport-agnostic connection creation path,
* the `connections` registry (a `Record<string, MoopsyConnection>`).

Effects are made explicit: each handler is a pure function from the incoming
request data and the current registry to a result structure recording the
HTTP response written (or the socket actions performed), the updated
registry, any value thrown, the disconnect hook registered, and the console
output produced.  Collaborating code that is not part of the embedded file
(the `MoopsyConnection` class body, the id generator, body parsing) enters
as explicit parameters or is modelled from the spec where noted.
-/

namespace SeamlessServer

/-- A raw Node HTTP header value: a single string, or an array of strings
when the client sent the header several times.  An absent header is
`none : Option HeaderValue`.  This mirrors the source type annotation
`string | null | void | string[]`. -/
inductive HeaderValue where
  | str (s : String)
  | arr (l : List String)
  deriving DecidableEq, Repr

/-- JavaScript `x.toString()` on a header value: a string is itself, an
array is joined with commas (`Array.prototype.toString`). -/
def HeaderValue.jsToString : HeaderValue → String
  | .str s => s
  | .arr l => String.intercalate "," l

/-- The guard `!x || typeof x !== "string"` from the source, applied to an
optional header value: yields the string exactly when the header is a
single non-empty string (the empty string is falsy in JavaScript, and an
array has `typeof` `"object"`), and `none` otherwise. -/
def singleStringHeader : Option HeaderValue → Option String
  | some (.str s) => if s = "" then none else some s
  | some (.arr _) => none
  | none => none

/-- The public-key identity attached to HTTP-established connections, the
source type `HTTPPublicKey`: a key string plus a key-type tag (the establish
handler always passes `"ecdsa"`). -/
structure HTTPPublicKey where
  key : String
  keyType : String
  deriving DecidableEq, Repr

/-- Modelled from the spec: the `MoopsyConnection` class
(`src/models/connection.ts`) is not under `src/`.  Per the spec (§3) a
Connection carries an `id` assigned at creation by the Identity Generator,
the `hostname` and `ip` captured at establishment time, and an optional
`publicKey` present only for connections established over the stateless
HTTP transport.  The id the generator produces inside the constructor is
made an explicit parameter of the creation path (`freshId`), standing for
the nondeterministic generator output.  `overSocket` records whether a raw
SocketIO socket was attached (`rawConnection !== null`). -/
structure MoopsyConnection where
  id : String
  hostname : String
  ip : String
  publicKey : Option HTTPPublicKey
  overSocket : Bool
  deriving DecidableEq, Repr

/-- The process-wide connection registry
`connections : Record<string, MoopsyConnection>` of the server, modelled as
an association list from connection id to connection. -/
abbrev Registry : Type := List (String × MoopsyConnection)

/-- JavaScript property read `connections[id]` (and the `id in connections`
test via `Option.isSome`). -/
def Registry.find (r : Registry) (i : String) : Option MoopsyConnection :=
  match r with
  | [] => none
  | p :: rest => if p.1 = i then some p.2 else Registry.find rest i

/-- JavaScript property write `connections[id] = c`.  In the source this is
only executed after the `id in connections` check failed, so prepending the
new binding is faithful. -/
def Registry.insert (r : Registry) (i : String) (c : MoopsyConnection) : Registry :=
  (i, c) :: r

/-- JavaScript `delete connections[id]`, the body of the disconnect hook
registered by `handleNewConnection`. -/
def Registry.erase (r : Registry) (i : String) : Registry :=
  r.filter (fun p => decide (p.1 ≠ i))

/-- Result of `handleNewConnection`: either the duplicate-id `Error` was
thrown (carrying the registry, which the throw leaves untouched), or a
connection was created and inserted; the registered disconnect hook
`() => delete this.connections[connection.id]` is represented by the id it
deletes (`hookId`). -/
inductive NewConnectionResult where
  | threw (message : String) (connections : Registry)
  | created (connection : MoopsyConnection) (connections : Registry) (hookId : String)
  deriving DecidableEq, Repr

/-- `handleNewConnection` (server.ts lines 205-221): constructs a
`MoopsyConnection` from the raw connection, hostname, ip and optional
public key, throws `"Tried to add new connection with duplicate id " + id`
when the generated id is already a registry key, and otherwise inserts the
connection and registers the disconnect hook that deletes its entry. -/
def handleNewConnection (connections : Registry) (freshId : String)
    (overSocket : Bool) (hostname ip : String)
    (publicKey : Option HTTPPublicKey) : NewConnectionResult :=
  let connection : MoopsyConnection := ⟨freshId, hostname, ip, publicKey, overSocket⟩
  if (Registry.find connections connection.id).isSome then
    .threw ("Tried to add new connection with duplicate id " ++ connection.id) connections
  else
    .created connection (Registry.insert connections connection.id connection) connection.id

/-- An HTTP response as the handlers write it: a status code and a body. -/
structure HTTPResponse where
  status : Nat
  body : String
  deriving DecidableEq, Repr

/-- The data `handleHTTPEstablishRequest` reads from the request:
`req.headers["x-seamless-publickey"]`, `req.headers["host"]` (annotated
`string | undefined` in the source), `req.headers["x-forwarded-for"]`, and
`req.connection.remoteAddress`. -/
structure EstablishRequest where
  publickeyHeader : Option HeaderValue
  hostHeader : Option String
  forwardedForHeader : Option HeaderValue
  remoteAddress : Option String
  deriving DecidableEq, Repr

/-- Result of the establish handler: the response written (`none` when the
handler threw before responding), the value thrown if any, the registry
afterwards, and the disconnect hook registered (as the id it deletes). -/
structure EstablishResult where
  response : Option HTTPResponse
  thrown : Option String
  connections : Registry
  hook : Option String
  deriving DecidableEq, Repr

/-- `JSON.stringify(\x7b connectionId: id \x7d)` for a plain id string. -/
def jsonConnectionIdBody (i : String) : String :=
  "\x7b\"connectionId\":\"" ++ i ++ "\"\x7d"

/-- `handleHTTPEstablishRequest` (server.ts lines 99-131): rejects a
missing or non-string public-key header with 400, then computes
`hostname = req.headers["host"]` and
`ip = req.headers["x-forwarded-for"]?.toString() ?? req.connection.remoteAddress`,
rejects a falsy hostname or ip with 400, and otherwise calls
`handleNewConnection` and answers 200 with the JSON connection id body.
`freshId` is the id the Identity Generator assigns inside the
`MoopsyConnection` constructor. -/
def handleHTTPEstablishRequest (connections : Registry) (freshId : String)
    (req : EstablishRequest) : EstablishResult :=
  match singleStringHeader req.publickeyHeader with
  | none => ⟨some ⟨400, "Missing x-seamless-publickey"⟩, none, connections, none⟩
  | some publicKey =>
    let hostname : Option String := req.hostHeader
    let ip : Option String :=
      match req.forwardedForHeader with
      | some v => some (HeaderValue.jsToString v)
      | none => req.remoteAddress
    match hostname with
    | none => ⟨some ⟨400, "Unable to determine hostname"⟩, none, connections, none⟩
    | some h =>
      if h = "" then
        ⟨some ⟨400, "Unable to determine hostname"⟩, none, connections, none⟩
      else
        match ip with
        | none => ⟨some ⟨400, "Unable to determine IP address"⟩, none, connections, none⟩
        | some i =>
          if i = "" then
            ⟨some ⟨400, "Unable to determine IP address"⟩, none, connections, none⟩
          else
            match handleNewConnection connections freshId false h i
                (some ⟨publicKey, "ecdsa"⟩) with
            | .threw msg st => ⟨none, some msg, st, none⟩
            | .created conn st hookId =>
              ⟨some ⟨200, jsonConnectionIdBody conn.id⟩, none, st, some hookId⟩

/-- A value thrown by the inbound handler
`connection.handleIncomingHTTPRequest`: either a recognized protocol-level
Moopsy error carrying a status code and message, or any other thrown value
(whose detail must not reach the wire). -/
inductive ThrownValue where
  | moopsyError (code : Nat) (message : String)
  | other (detail : String)
  deriving DecidableEq, Repr

/-- Modelled from the spec: `isMoopsyError` (`src/lib/is-moopsy-error.ts`)
is not under `src/`; per the spec (§4.4 step 5, §7) it recognizes exactly
the protocol-level errors that carry an explicit status code and message. -/
def isMoopsyError : ThrownValue → Bool
  | .moopsyError _ _ => true
  | .other _ => false

/-- Result of the message handler: the response written, the registry
afterwards, whether the inbound handler of a connection was invoked, and
the console output the handler produced through the logging utilities of
the server (`verbose` / `reportError`) — the source handler makes no such
call on any path, so this trace is always empty. -/
structure MessageResult where
  response : HTTPResponse
  connections : Registry
  handlerInvoked : Bool
  serverLog : List String
  deriving DecidableEq, Repr

/-- `handleHTTPMessageRequest` (server.ts lines 142-176): rejects a missing
or non-string connection-id header with 400, answers 404 when the id is not
a registry key, and otherwise invokes the inbound handler of the
connection; on success it answers 200 with the serialized result, on a
thrown Moopsy error it answers with exactly that code and message, and on
any other thrown value it answers 500 with the fixed body
`"Internal Server Error"`.  Body parsing, decoding and serialization live
in the connection class outside the embedded file, so the outcome of
`connection.handleIncomingHTTPRequest(safeJSONParse(rawData))` enters as
the parameter `handlerOutcome` (`Except.ok` carries the
`EJSON.stringify`-serialized response data). -/
def handleHTTPMessageRequest (connections : Registry)
    (connectionIdHeader : Option HeaderValue)
    (handlerOutcome : Except ThrownValue String) : MessageResult :=
  match singleStringHeader connectionIdHeader with
  | none => ⟨⟨400, "Missing connectionId"⟩, connections, false, []⟩
  | some connectionId =>
    match Registry.find connections connectionId with
    | none => ⟨⟨404, "Connection not found"⟩, connections, false, []⟩
    | some _ =>
      match handlerOutcome with
      | .ok responseData => ⟨⟨200, responseData⟩, connections, true, []⟩
      | .error e =>
        if isMoopsyError e then
          match e with
          | .moopsyError code message => ⟨⟨code, message⟩, connections, true, []⟩
          | .other _ => ⟨⟨500, "Internal Server Error"⟩, connections, true, []⟩
        else
          ⟨⟨500, "Internal Server Error"⟩, connections, true, []⟩

/-- An observable action performed on a SocketIO socket by the
establishment handler, in order. -/
inductive SocketAction where
  | write (data : String)
  | close
  deriving DecidableEq, Repr

/-- Result of the SocketIO establishment handler: the socket actions
performed in order, the registry afterwards, the disconnect hook registered
(as the id it deletes), and the value thrown if any. -/
structure SocketConnectionResult where
  actions : List SocketAction
  connections : Registry
  hook : Option String
  thrown : Option String
  deriving DecidableEq, Repr

/-- `handleNewSocketIOConnection` (server.ts lines 184-197): when the
handshake `host` header is nullish the handler writes
`"error:missing-hostname"` to the socket and disconnects it; otherwise it
determines the ip and hands off to `handleNewConnection`.
`determineIPFromSocket` (`src/lib/determine-ip-from-socket.ts`) is not
under `src/`, so the ip it returns enters as the parameter `socketIp`;
`freshId` is the id assigned inside the `MoopsyConnection` constructor. -/
def handleNewSocketIOConnection (connections : Registry) (freshId : String)
    (handshakeHost : Option String) (socketIp : String) : SocketConnectionResult :=
  match handshakeHost with
  | none => ⟨[.write "error:missing-hostname", .close], connections, none, none⟩
  | some hostname =>
    match handleNewConnection connections freshId true hostname socketIp none with
    | .threw msg st => ⟨[], st, none, some msg⟩
    | .created _ st hookId => ⟨[], st, some hookId, none⟩

/-- Whether the first character list is a prefix of the second. -/
def charsPrefix : List Char → List Char → Bool
  | [], _ => true
  | _ :: _, [] => false
  | a :: as, b :: bs => decide (a = b) && charsPrefix as bs

/-- Whether the needle occurs as a contiguous run inside the haystack. -/
def charsContain (needle : List Char) : List Char → Bool
  | [] => charsPrefix needle []
  | c :: rest => charsPrefix needle (c :: rest) || charsContain needle rest

/-- Case-insensitive substring test, used to state the spec scenario
`body containing "publickey" (case-insensitive)`. -/
def containsCI (haystack needle : String) : Bool :=
  charsContain (needle.data.map Char.toLower) (haystack.data.map Char.toLower)

/-- A sample connection used to instantiate hypotheses on concrete data. -/
def sampleConnection : MoopsyConnection :=
  ⟨"c1", "example.com", "10.0.0.1", none, true⟩

/-- A sample establish request whose public-key header is absent. -/
def reqMissingKey : EstablishRequest :=
  ⟨none, some "example.com", none, some "10.0.0.1"⟩

/-- A sample establish request passing every validation step, with no
forwarded-for header. -/
def reqValid : EstablishRequest :=
  ⟨some (.str "pk_abc"), some "example.com", none, some "10.0.0.1"⟩

/-- A sample establish request with both a forwarded-for header and a raw
peer address. -/
def reqXff : EstablishRequest :=
  ⟨some (.str "pk_abc"), some "example.com", some (.str "7.7.7.7"),
   some "10.0.0.1"⟩

/-- A sample establish request with neither forwarded-for header nor raw
peer address. -/
def reqNoIp : EstablishRequest :=
  ⟨some (.str "pk_abc"), some "example.com", none, none⟩

/-- A sample establish request missing both the hostname and the
public-key header (the raw peer address is available). -/
def reqMissingBoth : EstablishRequest :=
  ⟨none, none, none, some "10.0.0.1"⟩

/-- Looking up the key just inserted finds the inserted connection. -/
theorem registry_find_insert (r : Registry) (i : String) (c : MoopsyConnection) :
    Registry.find (Registry.insert r i c) i = some c := by
  simp [Registry.insert, Registry.find]

/-- Unfolding lemma for `Registry.erase` on a cons cell. -/
theorem registry_erase_cons (p : String × MoopsyConnection) (tl : Registry)
    (i : String) :
    Registry.erase (p :: tl) i =
      if p.1 = i then Registry.erase tl i else p :: Registry.erase tl i := by
  by_cases h : p.1 = i <;> simp [Registry.erase, List.filter_cons, h]

/-- Deleting an id from the registry twice equals deleting it once. -/
theorem registry_erase_erase (r : Registry) (i : String) :
    Registry.erase (Registry.erase r i) i = Registry.erase r i := by
  induction r with
  | nil => rfl
  | cons p tl ih =>
    by_cases h : p.1 = i
    · simpa [registry_erase_cons, h] using ih
    · simp [registry_erase_cons, h, ih]

/-- Deleting an id that is not a key of the registry changes nothing. -/
theorem registry_erase_of_find_none (r : Registry) (i : String)
    (h : Registry.find r i = none) : Registry.erase r i = r := by
  induction r with
  | nil => rfl
  | cons p tl ih =>
    unfold Registry.find at h
    by_cases hk : p.1 = i
    · simp [hk] at h
    · simp only [if_neg hk] at h
      simp [registry_erase_cons, hk, ih h]

/-- C1: when the freshly generated connection id is already a key of the
connections registry, `handleNewConnection` (the common path of both
transports) throws the duplicate-id error: the registry is returned
untouched (the existing entry is not overwritten and the new connection is
not inserted) and no disconnect hook is registered (the `threw` result
carries none). -/
theorem claim_C1 (connections : Registry) (freshId : String) (overSocket : Bool)
    (hostname ip : String) (publicKey : Option HTTPPublicKey)
    (h : (Registry.find connections freshId).isSome = true) :
    handleNewConnection connections freshId overSocket hostname ip publicKey =
      .threw ("Tried to add new connection with duplicate id " ++ freshId)
        connections := by
  simp [handleNewConnection, h]

/-- Witness for C1 at a registry already holding the id `"c1"`. -/
theorem claim_C1_witness :
    (Registry.find [("c1", sampleConnection)] "c1").isSome = true ∧
    handleNewConnection [("c1", sampleConnection)] "c1" false "example.com"
        "10.0.0.1" none =
      .threw ("Tried to add new connection with duplicate id " ++ "c1")
        [("c1", sampleConnection)] :=
  ⟨rfl, claim_C1 [("c1", sampleConnection)] "c1" false "example.com" "10.0.0.1"
    none rfl⟩

/-- C2: an HTTP establish request whose public-key header is missing or not
a single string is answered with status 400 and the body
`"Missing x-seamless-publickey"` (which contains `"publickey"`
case-insensitively); nothing is thrown, the registry is unchanged (no
connection is created) and no disconnect hook is registered. -/
theorem claim_C2 (connections : Registry) (freshId : String)
    (req : EstablishRequest)
    (h : singleStringHeader req.publickeyHeader = none) :
    handleHTTPEstablishRequest connections freshId req =
      ⟨some ⟨400, "Missing x-seamless-publickey"⟩, none, connections, none⟩ ∧
    containsCI "Missing x-seamless-publickey" "publickey" = true := by
  constructor
  · simp [handleHTTPEstablishRequest, h]
  · decide

/-- Witness for C2 at a concrete request with no public-key header. -/
theorem claim_C2_witness :
    singleStringHeader reqMissingKey.publickeyHeader = none ∧
    (handleHTTPEstablishRequest [] "c1" reqMissingKey =
       ⟨some ⟨400, "Missing x-seamless-publickey"⟩, none, [], none⟩ ∧
     containsCI "Missing x-seamless-publickey" "publickey" = true) :=
  ⟨rfl, claim_C2 [] "c1" reqMissingKey rfl⟩

/-- C9: a connection successfully created by `handleNewConnection` is found
in the returned registry under its own id, the registered disconnect hook
deletes exactly that id, and that deletion is idempotent: erasing the id
again — or erasing it from any registry where the id is no longer a key —
is a no-op that returns the registry unchanged (and `Registry.erase` is a
total function, so the repeated invocation cannot raise). -/
theorem claim_C9 (connections : Registry) (freshId : String) (overSocket : Bool)
    (hostname ip : String) (publicKey : Option HTTPPublicKey)
    (conn : MoopsyConnection) (st : Registry) (hookId : String)
    (h : handleNewConnection connections freshId overSocket hostname ip publicKey =
         .created conn st hookId) :
    Registry.find st conn.id = some conn ∧
    hookId = conn.id ∧
    (∀ r : Registry,
       Registry.erase (Registry.erase r hookId) hookId = Registry.erase r hookId) ∧
    (∀ r : Registry, Registry.find r hookId = none → Registry.erase r hookId = r) := by
  by_cases hf : (Registry.find connections freshId).isSome
  · simp [handleNewConnection, hf] at h
  · simp [handleNewConnection, hf] at h
    obtain ⟨hconn, hst, hhook⟩ := h
    subst hconn hst hhook
    refine ⟨registry_find_insert _ _ _, rfl, ?_, ?_⟩
    · intro r
      exact registry_erase_erase r _
    · intro r hr
      exact registry_erase_of_find_none r _ hr

/-- Witness for C9 at a fresh registry, with both idempotence conclusions
instantiated on concrete registries. -/
theorem claim_C9_witness :
    handleNewConnection [] "c1" true "example.com" "10.0.0.1" none =
      .created sampleConnection [("c1", sampleConnection)] "c1" ∧
    Registry.find [("c1", sampleConnection)] sampleConnection.id =
      some sampleConnection ∧
    "c1" = sampleConnection.id ∧
    Registry.erase (Registry.erase [("c1", sampleConnection)] "c1") "c1" =
      Registry.erase [("c1", sampleConnection)] "c1" ∧
    Registry.erase ([] : Registry) "c1" = [] :=
  ⟨rfl,
   (claim_C9 [] "c1" true "example.com" "10.0.0.1" none sampleConnection
      [("c1", sampleConnection)] "c1" rfl).1,
   (claim_C9 [] "c1" true "example.com" "10.0.0.1" none sampleConnection
      [("c1", sampleConnection)] "c1" rfl).2.1,
   (claim_C9 [] "c1" true "example.com" "10.0.0.1" none sampleConnection
      [("c1", sampleConnection)] "c1" rfl).2.2.1 [("c1", sampleConnection)],
   (claim_C9 [] "c1" true "example.com" "10.0.0.1" none sampleConnection
      [("c1", sampleConnection)] "c1" rfl).2.2.2 [] rfl⟩

/-- C3: an HTTP establish request passing validation (single non-empty
string public-key header, non-empty hostname, determinable non-empty ip)
with a fresh generated id is answered with status 200 and the body
`JSON.stringify` of exactly `connectionId` mapped to the id of the newly
created connection, and that connection is registered in the connections
map under that same id. -/
theorem claim_C3 (connections : Registry) (freshId : String)
    (req : EstablishRequest) (publicKey hostname ip : String)
    (hpk : singleStringHeader req.publickeyHeader = some publicKey)
    (hhost : req.hostHeader = some hostname) (hh : hostname ≠ "")
    (hip : (match req.forwardedForHeader with
            | some v => some (HeaderValue.jsToString v)
            | none => req.remoteAddress) = some ip)
    (hi : ip ≠ "")
    (hfresh : Registry.find connections freshId = none) :
    handleHTTPEstablishRequest connections freshId req =
      ⟨some ⟨200, jsonConnectionIdBody freshId⟩, none,
       Registry.insert connections freshId
         ⟨freshId, hostname, ip, some ⟨publicKey, "ecdsa"⟩, false⟩,
       some freshId⟩ ∧
    Registry.find
        (Registry.insert connections freshId
          ⟨freshId, hostname, ip, some ⟨publicKey, "ecdsa"⟩, false⟩) freshId =
      some ⟨freshId, hostname, ip, some ⟨publicKey, "ecdsa"⟩, false⟩ := by
  constructor
  · simp [handleHTTPEstablishRequest, hpk, hhost, hip, hh, hi,
      handleNewConnection, hfresh]
  · exact registry_find_insert _ _ _

/-- Witness for C3 at a concrete valid request and empty registry. -/
theorem claim_C3_witness :
    singleStringHeader reqValid.publickeyHeader = some "pk_abc" ∧
    reqValid.hostHeader = some "example.com" ∧
    ("example.com" : String) ≠ "" ∧
    (match reqValid.forwardedForHeader with
     | some v => some (HeaderValue.jsToString v)
     | none => reqValid.remoteAddress) = some "10.0.0.1" ∧
    ("10.0.0.1" : String) ≠ "" ∧
    Registry.find [] "c1" = none ∧
    (handleHTTPEstablishRequest [] "c1" reqValid =
       ⟨some ⟨200, jsonConnectionIdBody "c1"⟩, none,
        Registry.insert [] "c1"
          ⟨"c1", "example.com", "10.0.0.1", some ⟨"pk_abc", "ecdsa"⟩, false⟩,
        some "c1"⟩ ∧
     Registry.find
         (Registry.insert [] "c1"
           ⟨"c1", "example.com", "10.0.0.1", some ⟨"pk_abc", "ecdsa"⟩, false⟩)
         "c1" =
       some ⟨"c1", "example.com", "10.0.0.1", some ⟨"pk_abc", "ecdsa"⟩, false⟩) :=
  ⟨rfl, rfl, by decide, rfl, by decide, rfl,
   claim_C3 [] "c1" reqValid "pk_abc" "example.com" "10.0.0.1" rfl rfl
     (by decide) rfl (by decide) rfl⟩

/-- C4: an HTTP message request whose connection-id header is missing or
not a single string is answered with the structured 400 response
`"Missing connectionId"`, and one whose id is not a registry key is
answered 404 `"Connection not found"`; in both cases the registry is
unchanged and no inbound handler of any connection is invoked. -/
theorem claim_C4 :
    (∀ (connections : Registry) (hdr : Option HeaderValue)
       (outcome : Except ThrownValue String),
       singleStringHeader hdr = none →
       handleHTTPMessageRequest connections hdr outcome =
         ⟨⟨400, "Missing connectionId"⟩, connections, false, []⟩) ∧
    (∀ (connections : Registry) (cid : String)
       (outcome : Except ThrownValue String),
       cid ≠ "" → Registry.find connections cid = none →
       handleHTTPMessageRequest connections (some (.str cid)) outcome =
         ⟨⟨404, "Connection not found"⟩, connections, false, []⟩) := by
  constructor
  · intro connections hdr outcome h
    simp [handleHTTPMessageRequest, h]
  · intro connections cid outcome hne hfind
    simp [handleHTTPMessageRequest, singleStringHeader, hne, hfind]

/-- Witness for C4 at an array-valued header and at an unknown id. -/
theorem claim_C4_witness :
    singleStringHeader (some (.arr ["a", "b"])) = none ∧
    handleHTTPMessageRequest [] (some (.arr ["a", "b"])) (.ok "x") =
      ⟨⟨400, "Missing connectionId"⟩, [], false, []⟩ ∧
    ("zz" : String) ≠ "" ∧
    Registry.find [] "zz" = none ∧
    handleHTTPMessageRequest [] (some (.str "zz")) (.ok "x") =
      ⟨⟨404, "Connection not found"⟩, [], false, []⟩ :=
  ⟨rfl, claim_C4.1 [] (some (.arr ["a", "b"])) (.ok "x") rfl, by decide, rfl,
   claim_C4.2 [] "zz" (.ok "x") (by decide) rfl⟩

/-- C5 counterexample: at a registered connection whose inbound handler
throws the unclassified value `other "boom"`, the handler answers 500 with
the fixed generic body, but its server-side log output is empty — the
source catch-all branch performs no logging call, contradicting the part
of the claim stating the unclassified error is logged with full detail
server-side. -/
theorem claim_C5_cex :
    handleHTTPMessageRequest [("c1", sampleConnection)] (some (.str "c1"))
        (.error (.other "boom")) =
      ⟨⟨500, "Internal Server Error"⟩, [("c1", sampleConnection)], true, []⟩ ∧
    (handleHTTPMessageRequest [("c1", sampleConnection)] (some (.str "c1"))
        (.error (.other "boom"))).serverLog = [] :=
  ⟨rfl, rfl⟩

/-- C5 (amended): for an HTTP message request reaching a registered
connection whose inbound handler throws, a recognized Moopsy error is
answered with exactly its status code and message as the body, and any
other thrown value is answered 500 with the fixed generic body
`"Internal Server Error"`, leaking no internal detail; in either case the
handler produces no server-side log output. -/
theorem claim_C5 :
    (∀ (connections : Registry) (hdr : Option HeaderValue) (cid : String)
       (conn : MoopsyConnection) (code : Nat) (message : String),
       singleStringHeader hdr = some cid →
       Registry.find connections cid = some conn →
       isMoopsyError (.moopsyError code message) = true ∧
       handleHTTPMessageRequest connections hdr
           (.error (.moopsyError code message)) =
         ⟨⟨code, message⟩, connections, true, []⟩) ∧
    (∀ (connections : Registry) (hdr : Option HeaderValue) (cid : String)
       (conn : MoopsyConnection) (detail : String),
       singleStringHeader hdr = some cid →
       Registry.find connections cid = some conn →
       isMoopsyError (.other detail) = false ∧
       handleHTTPMessageRequest connections hdr (.error (.other detail)) =
         ⟨⟨500, "Internal Server Error"⟩, connections, true, []⟩) := by
  constructor
  · intro connections hdr cid conn code message hhdr hfind
    exact ⟨rfl, by simp [handleHTTPMessageRequest, hhdr, hfind, isMoopsyError]⟩
  · intro connections hdr cid conn detail hhdr hfind
    exact ⟨rfl, by simp [handleHTTPMessageRequest, hhdr, hfind, isMoopsyError]⟩

/-- Witness for the amended C5 at a registered connection, with a thrown
Moopsy error `(403, "Forbidden")` and a thrown unclassified value. -/
theorem claim_C5_witness :
    singleStringHeader (some (.str "c1")) = some "c1" ∧
    Registry.find [("c1", sampleConnection)] "c1" = some sampleConnection ∧
    (isMoopsyError (.moopsyError 403 "Forbidden") = true ∧
     handleHTTPMessageRequest [("c1", sampleConnection)] (some (.str "c1"))
         (.error (.moopsyError 403 "Forbidden")) =
       ⟨⟨403, "Forbidden"⟩, [("c1", sampleConnection)], true, []⟩) ∧
    (isMoopsyError (.other "boom2") = false ∧
     handleHTTPMessageRequest [("c1", sampleConnection)] (some (.str "c1"))
         (.error (.other "boom2")) =
       ⟨⟨500, "Internal Server Error"⟩, [("c1", sampleConnection)], true, []⟩) :=
  ⟨rfl, rfl,
   claim_C5.1 [("c1", sampleConnection)] (some (.str "c1")) "c1"
     sampleConnection 403 "Forbidden" rfl rfl,
   claim_C5.2 [("c1", sampleConnection)] (some (.str "c1")) "c1"
     sampleConnection "boom2" rfl rfl⟩

/-- C6 counterexample: at a request missing both the hostname and the
public-key header, the rejection issued is the missing-publickey 400, not
the missing-hostname 400 the claim predicts. -/
theorem claim_C6_cex :
    handleHTTPEstablishRequest [] "c1" reqMissingBoth =
      ⟨some ⟨400, "Missing x-seamless-publickey"⟩, none, [], none⟩ ∧
    handleHTTPEstablishRequest [] "c1" reqMissingBoth ≠
      ⟨some ⟨400, "Unable to determine hostname"⟩, none, [], none⟩ := by
  exact ⟨rfl, by decide⟩

/-- C6 (amended): the HTTP establish handler validates the public-key
header first, the hostname second, and the ip last: an invalid public-key
header is rejected with the missing-publickey 400 regardless of the other
fields (in particular when the hostname is also missing), a missing or
empty hostname is rejected with the hostname 400 only once the public-key
header is valid, and an undeterminable ip is rejected with the ip 400 only
once both are valid. -/
theorem claim_C6 :
    (∀ (connections : Registry) (freshId : String) (req : EstablishRequest),
       singleStringHeader req.publickeyHeader = none →
       handleHTTPEstablishRequest connections freshId req =
         ⟨some ⟨400, "Missing x-seamless-publickey"⟩, none, connections, none⟩) ∧
    (∀ (connections : Registry) (freshId : String) (req : EstablishRequest)
       (pk : String),
       singleStringHeader req.publickeyHeader = some pk →
       (req.hostHeader = none ∨ req.hostHeader = some "") →
       handleHTTPEstablishRequest connections freshId req =
         ⟨some ⟨400, "Unable to determine hostname"⟩, none, connections, none⟩) ∧
    (∀ (connections : Registry) (freshId : String) (req : EstablishRequest)
       (pk hostname : String),
       singleStringHeader req.publickeyHeader = some pk →
       req.hostHeader = some hostname → hostname ≠ "" →
       req.forwardedForHeader = none → req.remoteAddress = none →
       handleHTTPEstablishRequest connections freshId req =
         ⟨some ⟨400, "Unable to determine IP address"⟩, none, connections, none⟩) := by
  refine ⟨?_, ?_, ?_⟩
  · intro connections freshId req h
    simp [handleHTTPEstablishRequest, h]
  · intro connections freshId req pk hpk hor
    rcases hor with h | h <;> simp [handleHTTPEstablishRequest, hpk, h]
  · intro connections freshId req pk hostname hpk hhost hh hxff hremote
    simp [handleHTTPEstablishRequest, hpk, hhost, hh, hxff, hremote]

/-- Witness for the amended C6: the missing-both request yields the
publickey 400; a valid-key request with no hostname yields the hostname
400; a valid key and hostname with no ip source yields the ip 400. -/
theorem claim_C6_witness :
    singleStringHeader reqMissingBoth.publickeyHeader = none ∧
    handleHTTPEstablishRequest [] "c1" reqMissingBoth =
      ⟨some ⟨400, "Missing x-seamless-publickey"⟩, none, [], none⟩ ∧
    handleHTTPEstablishRequest [] "c1"
        ⟨some (.str "pk_abc"), none, none, some "10.0.0.1"⟩ =
      ⟨some ⟨400, "Unable to determine hostname"⟩, none, [], none⟩ ∧
    handleHTTPEstablishRequest [] "c1" reqNoIp =
      ⟨some ⟨400, "Unable to determine IP address"⟩, none, [], none⟩ :=
  ⟨rfl,
   claim_C6.1 [] "c1" reqMissingBoth rfl,
   claim_C6.2.1 [] "c1" ⟨some (.str "pk_abc"), none, none, some "10.0.0.1"⟩
     "pk_abc" rfl (Or.inl rfl),
   claim_C6.2.2 [] "c1" reqNoIp "pk_abc" "example.com" rfl rfl (by decide)
     rfl rfl⟩

/-- C7: the ip of an HTTP-established connection is the forwarded-for
header value (via `toString`) when that header is present, and the raw peer
address of the transport otherwise — witnessed by the ip field of the
connection the created registry holds; when neither source yields a value
the handler answers with some 400 response, throws nothing, creates no
connection and registers no hook. -/
theorem claim_C7 :
    (∀ (connections : Registry) (freshId : String) (req : EstablishRequest)
       (pk hostname : String) (v : HeaderValue),
       singleStringHeader req.publickeyHeader = some pk →
       req.hostHeader = some hostname → hostname ≠ "" →
       req.forwardedForHeader = some v → HeaderValue.jsToString v ≠ "" →
       Registry.find connections freshId = none →
       handleHTTPEstablishRequest connections freshId req =
         ⟨some ⟨200, jsonConnectionIdBody freshId⟩, none,
          Registry.insert connections freshId
            ⟨freshId, hostname, HeaderValue.jsToString v,
             some ⟨pk, "ecdsa"⟩, false⟩,
          some freshId⟩) ∧
    (∀ (connections : Registry) (freshId : String) (req : EstablishRequest)
       (pk hostname a : String),
       singleStringHeader req.publickeyHeader = some pk →
       req.hostHeader = some hostname → hostname ≠ "" →
       req.forwardedForHeader = none → req.remoteAddress = some a → a ≠ "" →
       Registry.find connections freshId = none →
       handleHTTPEstablishRequest connections freshId req =
         ⟨some ⟨200, jsonConnectionIdBody freshId⟩, none,
          Registry.insert connections freshId
            ⟨freshId, hostname, a, some ⟨pk, "ecdsa"⟩, false⟩,
          some freshId⟩) ∧
    (∀ (connections : Registry) (freshId : String) (req : EstablishRequest),
       req.forwardedForHeader = none → req.remoteAddress = none →
       ∃ b, handleHTTPEstablishRequest connections freshId req =
         ⟨some ⟨400, b⟩, none, connections, none⟩) := by
  refine ⟨?_, ?_, ?_⟩
  · intro connections freshId req pk hostname v hpk hhost hh hxff hv hfresh
    simp [handleHTTPEstablishRequest, hpk, hhost, hh, hxff, hv,
      handleNewConnection, hfresh]
  · intro connections freshId req pk hostname a hpk hhost hh hxff hra ha hfresh
    simp [handleHTTPEstablishRequest, hpk, hhost, hh, hxff, hra, ha,
      handleNewConnection, hfresh]
  · intro connections freshId req hxff hremote
    cases hpk : singleStringHeader req.publickeyHeader with
    | none =>
      exact ⟨"Missing x-seamless-publickey",
        by simp [handleHTTPEstablishRequest, hpk]⟩
    | some pk =>
      cases hhost : req.hostHeader with
      | none =>
        exact ⟨"Unable to determine hostname",
          by simp [handleHTTPEstablishRequest, hpk, hhost]⟩
      | some h =>
        by_cases he : h = ""
        · exact ⟨"Unable to determine hostname",
            by simp [handleHTTPEstablishRequest, hpk, hhost, he]⟩
        · exact ⟨"Unable to determine IP address",
            by simp [handleHTTPEstablishRequest, hpk, hhost, he, hxff, hremote]⟩

/-- Witness for C7: with the forwarded-for header `"7.7.7.7"` present the
created connection carries that ip even though the peer address is
`"10.0.0.1"`; without the header the peer address is used; with neither a
400 response leaves the registry empty. -/
theorem claim_C7_witness :
    handleHTTPEstablishRequest [] "c1" reqXff =
      ⟨some ⟨200, jsonConnectionIdBody "c1"⟩, none,
       Registry.insert [] "c1"
         ⟨"c1", "example.com", "7.7.7.7", some ⟨"pk_abc", "ecdsa"⟩, false⟩,
       some "c1"⟩ ∧
    handleHTTPEstablishRequest [] "c2" reqValid =
      ⟨some ⟨200, jsonConnectionIdBody "c2"⟩, none,
       Registry.insert [] "c2"
         ⟨"c2", "example.com", "10.0.0.1", some ⟨"pk_abc", "ecdsa"⟩, false⟩,
       some "c2"⟩ ∧
    (∃ b, handleHTTPEstablishRequest [] "c3" reqNoIp =
       ⟨some ⟨400, b⟩, none, [], none⟩) :=
  ⟨claim_C7.1 [] "c1" reqXff "pk_abc" "example.com" (.str "7.7.7.7") rfl rfl
     (by decide) rfl (by decide) rfl,
   claim_C7.2.1 [] "c2" reqValid "pk_abc" "example.com" "10.0.0.1" rfl rfl
     (by decide) rfl rfl (by decide) rfl,
   claim_C7.2.2 [] "c3" reqNoIp rfl rfl⟩

/-- C8: a new SocketIO connection whose handshake headers lack a hostname
causes the handler to write the error signal `"error:missing-hostname"` to
the socket and then disconnect it; the registry is unchanged, no disconnect
hook is registered and nothing is thrown — no connection is created. -/
theorem claim_C8 (connections : Registry) (freshId socketIp : String) :
    handleNewSocketIOConnection connections freshId none socketIp =
      ⟨[.write "error:missing-hostname", .close], connections, none, none⟩ :=
  rfl

/-- C10: a non-string (array-valued) `x-seamless-publickey` header on an
establish request, and a non-string `x-seamless-connection-id` header on a
message request, are each rejected with the same 400 response the handler
gives when the header is absent: only a single string-typed header value is
ever accepted. -/
theorem claim_C10 :
    (∀ (connections : Registry) (freshId : String) (req : EstablishRequest)
       (l : List String),
       req.publickeyHeader = some (.arr l) →
       handleHTTPEstablishRequest connections freshId req =
         handleHTTPEstablishRequest connections freshId
           ⟨none, req.hostHeader, req.forwardedForHeader, req.remoteAddress⟩ ∧
       handleHTTPEstablishRequest connections freshId req =
         ⟨some ⟨400, "Missing x-seamless-publickey"⟩, none, connections, none⟩) ∧
    (∀ (connections : Registry) (l : List String)
       (outcome : Except ThrownValue String),
       handleHTTPMessageRequest connections (some (.arr l)) outcome =
         handleHTTPMessageRequest connections none outcome ∧
       handleHTTPMessageRequest connections (some (.arr l)) outcome =
         ⟨⟨400, "Missing connectionId"⟩, connections, false, []⟩) := by
  constructor
  · intro connections freshId req l h
    constructor <;> simp [handleHTTPEstablishRequest, h, singleStringHeader]
  · intro connections l outcome
    constructor <;> simp [handleHTTPMessageRequest, singleStringHeader]

/-- Witness for C10 at a doubled public-key header and a doubled
connection-id header. -/
theorem claim_C10_witness :
    (EstablishRequest.mk (some (.arr ["pk1", "pk2"])) (some "example.com")
        none (some "10.0.0.1")).publickeyHeader = some (.arr ["pk1", "pk2"]) ∧
    handleHTTPEstablishRequest [] "c1"
        ⟨some (.arr ["pk1", "pk2"]), some "example.com", none,
         some "10.0.0.1"⟩ =
      ⟨some ⟨400, "Missing x-seamless-publickey"⟩, none, [], none⟩ ∧
    handleHTTPMessageRequest [] (some (.arr ["c1", "c2"])) (.ok "x") =
      ⟨⟨400, "Missing connectionId"⟩, [], false, []⟩ :=
  ⟨rfl,
   (claim_C10.1 [] "c1"
      ⟨some (.arr ["pk1", "pk2"]), some "example.com", none, some "10.0.0.1"⟩
      ["pk1", "pk2"] rfl).2,
   (claim_C10.2 [] ["c1", "c2"] (.ok "x")).2⟩

end SeamlessServer
